import Mathlib

set_option maxRecDepth 4000

/-!
Verification of `src/services/pow_service_client.py` (`POWServiceClient`).

The module is a single client class with a static helper `_request_sync`
and one async method `get_sentinel_token`.  The embedding below models the
Python values flowing through that method as a JSON value type (Python's
`None` and JSON `null` are identified, as `json.loads` maps `null` to
`None`), the diagnostic logger as a list of log entries, and the network
as an input: either a raised transport exception or a response with a
status code and a body text.  Exceptions inside the method's `try` block
are modelled with `Except`; the bare `except:` handlers of the source are
modelled by the corresponding fallback branches.

JSON numbers are modelled as integers (the claims under study involve no
fractional numerals; the parser rejects them, and a body it rejects takes
the same raised-exception path that an unparsable body takes).
-/

/-- A JSON value as decoded by Python's `json.loads`; `null` doubles as
Python `None` (the two are the same object in the source's dataflow). -/
inductive JsonValue where
  | null
  | bool (b : Bool)
  | num (n : Int)
  | str (s : String)
  | arr (elems : List JsonValue)
  | obj (fields : List (String × JsonValue))

/-- Python truthiness of a decoded JSON value (`if not x` tests). -/
def pyTruthy : JsonValue → Bool
  | .null => false
  | .bool b => b
  | .num n => n != 0
  | .str s => s != ""
  | .arr elems => !elems.isEmpty
  | .obj fields => !fields.isEmpty

/-- Truthiness of a Python variable that may be unassigned-`None`
(modelled as `Option JsonValue`, `none` standing for Python `None`). -/
def optTruthy : Option JsonValue → Bool
  | none => false
  | some v => pyTruthy v

/-- Python type name of a decoded JSON value, as it appears in
`TypeError` / `AttributeError` messages. -/
def pyTypeName : JsonValue → String
  | .null => "NoneType"
  | .bool _ => "bool"
  | .num _ => "int"
  | .str _ => "str"
  | .arr _ => "list"
  | .obj _ => "dict"

/-- Python `len`, raising `TypeError` (as a message) on sized-less values. -/
def pyLen : JsonValue → Except String Nat
  | .str s => .ok s.length
  | .arr elems => .ok elems.length
  | .obj fields => .ok fields.length
  | v => .error ("object of type \x27" ++ pyTypeName v ++ "\x27 has no len()")

mutual

/-- Python `repr` of a decoded JSON value (string quoting simplified to a
plain single-quote wrap; no claim depends on escape rendering). -/
def pyRepr : JsonValue → String
  | .null => "None"
  | .bool true => "True"
  | .bool false => "False"
  | .num n => toString n
  | .str s => "\x27" ++ s ++ "\x27"
  | .arr elems => "[" ++ pyReprElems elems ++ "]"
  | .obj fields => "\x7b" ++ pyReprFields fields ++ "\x7d"

/-- Comma-separated `repr`s of list elements. -/
def pyReprElems : List JsonValue → String
  | [] => ""
  | [v] => pyRepr v
  | v :: rest => pyRepr v ++ ", " ++ pyReprElems rest

/-- Comma-separated `'key': repr` pairs of a dict. -/
def pyReprFields : List (String × JsonValue) → String
  | [] => ""
  | [(k, v)] => "\x27" ++ k ++ "\x27: " ++ pyRepr v
  | (k, v) :: rest => "\x27" ++ k ++ "\x27: " ++ pyRepr v ++ ", " ++ pyReprFields rest

end

/-- Python `str` (f-string interpolation) of a decoded JSON value. -/
def pyStr : JsonValue → String
  | .str s => s
  | v => pyRepr v

/-- `dict.get(k)`: the value at key `k`, Python `None` (here `.null`)
when the key is absent. -/
def dictGet (fields : List (String × JsonValue)) (k : String) : JsonValue :=
  match fields.find? (fun kv => kv.1 == k) with
  | some kv => kv.2
  | none => .null

/-- `dict.get(k, d)`: the value at key `k`, default `d` when absent. -/
def dictGetD (fields : List (String × JsonValue)) (k : String) (d : JsonValue) : JsonValue :=
  match fields.find? (fun kv => kv.1 == k) with
  | some kv => kv.2
  | none => d

/-- Insert preserving Python `dict` semantics for repeated JSON keys:
the value is replaced in place, first occurrence keeps its position. -/
def dictInsert (fields : List (String × JsonValue)) (k : String) (v : JsonValue) :
    List (String × JsonValue) :=
  match fields with
  | [] => [(k, v)]
  | kv :: rest => if kv.1 == k then (k, v) :: rest else kv :: dictInsert rest k v

/-- JSON whitespace skipping, as in Python's `json` scanner. -/
def skipWs : List Char → List Char
  | c :: cs => if c = ' ' ∨ c = '\t' ∨ c = '\n' ∨ c = '\r' then skipWs cs else c :: cs
  | [] => []

/-- One escape sequence after a backslash inside a JSON string literal. -/
def unescapeChar (c : Char) : Option Char :=
  if c = '"' then some '"'
  else if c = '\\' then some '\\'
  else if c = '/' then some '/'
  else if c = 'n' then some '\n'
  else if c = 't' then some '\t'
  else if c = 'r' then some '\r'
  else if c = 'b' then some (Char.ofNat 8)
  else if c = 'f' then some (Char.ofNat 12)
  else none

/-- Value of a hexadecimal digit. -/
def hexVal (c : Char) : Option Nat :=
  if '0' ≤ c ∧ c ≤ '9' then some (c.toNat - '0'.toNat)
  else if 'a' ≤ c ∧ c ≤ 'f' then some (c.toNat - 'a'.toNat + 10)
  else if 'A' ≤ c ∧ c ≤ 'F' then some (c.toNat - 'A'.toNat + 10)
  else none

/-- Body of a JSON string literal (after the opening quote), returning the
decoded characters and the remainder after the closing quote. -/
def parseStringBody : List Char → Option (List Char × List Char)
  | [] => none
  | '"' :: rest => some ([], rest)
  | '\\' :: 'u' :: a :: b :: c :: d :: rest => do
    let ha ← hexVal a
    let hb ← hexVal b
    let hc ← hexVal c
    let hd ← hexVal d
    let (tail, rem) ← parseStringBody rest
    pure (Char.ofNat (((ha * 16 + hb) * 16 + hc) * 16 + hd) :: tail, rem)
  | '\\' :: e :: rest => do
    let c ← unescapeChar e
    let (tail, rem) ← parseStringBody rest
    pure (c :: tail, rem)
  | c :: rest => do
    let (tail, rem) ← parseStringBody rest
    pure (c :: tail, rem)

/-- Decimal digits to a natural number (most significant first). -/
def digitsToNat (acc : Nat) : List Char → Nat
  | [] => acc
  | c :: cs => digitsToNat (acc * 10 + (c.toNat - '0'.toNat)) cs

/-- An integer JSON numeral; fractional or exponent forms are rejected
(see the module comment). -/
def parseIntNumeral (cs : List Char) : Option (Int × List Char) :=
  let (neg, cs) := match cs with
    | '-' :: rest => (true, rest)
    | _ => (false, cs)
  let digits := cs.takeWhile Char.isDigit
  let rest := cs.dropWhile Char.isDigit
  if digits.isEmpty then none
  else match rest with
    | c :: _ => if c = '.' ∨ c = 'e' ∨ c = 'E' then none
        else some (if neg then -(digitsToNat 0 digits : Int) else (digitsToNat 0 digits : Int), rest)
    | [] => some (if neg then -(digitsToNat 0 digits : Int) else (digitsToNat 0 digits : Int), rest)

mutual

/-- One JSON value starting at the head of the input (no leading
whitespace), with the unconsumed remainder. -/
def parseJsonValue (fuel : Nat) (cs : List Char) : Option (JsonValue × List Char) :=
  match fuel with
  | 0 => none
  | fuel + 1 =>
    match cs with
    | '"' :: rest => do
      let (body, rem) ← parseStringBody rest
      pure (.str (String.mk body), rem)
    | '\x7b' :: rest =>
      (match skipWs rest with
       | '\x7d' :: rem => some (.obj [], rem)
       | other => do
         let (fields, rem) ← parseJsonMembers fuel other []
         pure (.obj fields, rem))
    | '[' :: rest =>
      (match skipWs rest with
       | ']' :: rem => some (.arr [], rem)
       | other => do
         let (elems, rem) ← parseJsonElements fuel other
         pure (.arr elems, rem))
    | 't' :: 'r' :: 'u' :: 'e' :: rest => some (.bool true, rest)
    | 'f' :: 'a' :: 'l' :: 's' :: 'e' :: rest => some (.bool false, rest)
    | 'n' :: 'u' :: 'l' :: 'l' :: rest => some (.null, rest)
    | other => do
      let (n, rest) ← parseIntNumeral other
      pure (.num n, rest)

/-- The members of a JSON object, starting at a key (no leading
whitespace), up to and including the closing brace. -/
def parseJsonMembers (fuel : Nat) (cs : List Char) (acc : List (String × JsonValue)) :
    Option (List (String × JsonValue) × List Char) :=
  match fuel with
  | 0 => none
  | fuel + 1 =>
    match cs with
    | '"' :: rest => do
      let (keyChars, afterKey) ← parseStringBody rest
      match skipWs afterKey with
      | ':' :: afterColon => do
        let (v, afterVal) ← parseJsonValue fuel (skipWs afterColon)
        let acc := dictInsert acc (String.mk keyChars) v
        match skipWs afterVal with
        | ',' :: afterComma => parseJsonMembers fuel (skipWs afterComma) acc
        | '\x7d' :: rem => some (acc, rem)
        | _ => none
      | _ => none
    | _ => none

/-- The elements of a JSON array, starting at a value (no leading
whitespace), up to and including the closing bracket. -/
def parseJsonElements (fuel : Nat) (cs : List Char) : Option (List JsonValue × List Char) :=
  match fuel with
  | 0 => none
  | fuel + 1 => do
    let (v, afterVal) ← parseJsonValue fuel cs
    match skipWs afterVal with
    | ',' :: afterComma => do
      let (tail, rem) ← parseJsonElements fuel (skipWs afterComma)
      pure (v :: tail, rem)
    | ']' :: rem => some ([v], rem)
    | _ => none

end

/-- Python's `json.loads`: the whole input must be one JSON value
surrounded only by whitespace. -/
def jsonLoads (s : String) : Option JsonValue :=
  let cs := s.data
  match parseJsonValue (cs.length + 1) (skipWs cs) with
  | some (v, rest) => if skipWs rest = [] then some v else none
  | none => none

example : jsonLoads "\x7b\"id\":\"dev-42\"\x7d" = some (.obj [("id", .str "dev-42")]) := by rfl
example : jsonLoads "abc123" = none := by rfl
example : jsonLoads " \x7b \"success\": true, \"token\": \"t\" \x7d " =
    some (.obj [("success", .bool true), ("token", .str "t")]) := by rfl
example : jsonLoads "[1, -2]" = some (.arr [.num 1, .num (-2)]) := by rfl
example : jsonLoads "\x7b\x7d" = some (.obj []) := by rfl

/-- Python's `str.rstrip('/')`: drop every trailing slash. -/
def rstripSlash (s : String) : String :=
  String.mk ((s.data.reverse.dropWhile (fun c => c = '/')).reverse)

/-- The four configuration values read at the top of
`get_sentinel_token` (`config.pow_service_*`). -/
structure Config where
  pow_service_server_url : String
  pow_service_api_key : String
  pow_service_proxy_enabled : Bool
  pow_service_proxy_url : String
deriving DecidableEq

/-- The proxy dictionary built in `_request_sync`:
`{"http": proxy_url, "https": proxy_url}`. -/
structure Proxies where
  http : String
  https : String
deriving DecidableEq

/-- One dispatched HTTP GET, as assembled by `get_sentinel_token` and
`_request_sync` (URL, the two headers, timeout, resolved proxies). -/
structure Request where
  url : String
  authorization : String
  accept : String
  timeout : Nat
  proxies : Option Proxies
deriving DecidableEq

/-- A record written to `debug_logger`: `log_info(message)` or
`log_error(error_message, status_code, response_text, source)`. -/
inductive LogEntry where
  | info (message : String)
  | error (error_message : String) (status_code : Int) (response_text : String) (source : String)
deriving DecidableEq

/-- Whether a log entry is an error record. -/
def LogEntry.isError : LogEntry → Bool
  | .info _ => false
  | .error _ _ _ _ => true

/-- What the network does with the dispatched request: raise a transport
exception (message text) or deliver a response (status code, body text). -/
inductive NetOutcome where
  | exc (message : String)
  | resp (status_code : Int) (text : String)

/-- Observable outcome of one `get_sentinel_token` call: the returned
value (`none` is Python `None`), the log, and the dispatched requests. -/
structure SentinelResult where
  result : Option (JsonValue × JsonValue × JsonValue)
  log : List LogEntry
  requests : List Request

def configMissingEntry : LogEntry :=
  .error "POW service not configured: missing server_url or api_key" 0
    "Configuration error" "POWServiceClient"

def requestLogEntry (api_url : String) : LogEntry :=
  .info ("[POW Service] Requesting token from " ++ api_url)

def upstreamFailEntry (sc : Int) (text : String) : LogEntry :=
  .error ("POW service request failed: " ++ toString sc) sc text "POWServiceClient"

def successFalseEntry (sc : Int) (text : String) : LogEntry :=
  .error "POW service returned success=false" sc text "POWServiceClient"

def emptyTokenEntry (sc : Int) (text : String) : LogEntry :=
  .error "POW service returned empty token" sc text "POWServiceClient"

def requestExceptionEntry (e : String) : LogEntry :=
  .error ("POW service request exception: " ++ e) 0 e "POWServiceClient"

/-- `"=" * 100`. -/
def sepLine : String := String.mk (List.replicate 100 '=')

def notJsonEntry : LogEntry := .info "[POW Service] Token is not valid JSON"

/-- Message of the `JSONDecodeError` that `response.json()` raises on an
unparsable body (models the library's error text). -/
def jsonDecodeMessage : String := "Expecting value: line 1 column 1 (char 0)"

/-- Message of the `AttributeError` raised when `.get`/`.keys` is called
on a non-dict value (models Python's error text). -/
def noAttrMessage (v : JsonValue) (attrName : String) : String :=
  "\x27" ++ pyTypeName v ++ "\x27 object has no attribute \x27" ++ attrName ++ "\x27"

/-- `f"[POW Service] Token structure keys: {list(token_data.keys())}"`. -/
def tokenKeysLine (tf : List (String × JsonValue)) : String :=
  "[POW Service] Token structure keys: [" ++
    String.intercalate ", " (tf.map (fun kv => "\x27" ++ kv.1 ++ "\x27")) ++ "]"

/-- One `Token[key]: ...` diagnostic line: strings longer than 100
characters are replaced by a type-and-length placeholder, every other
value is interpolated. -/
def tokenItemLine (key : String) (value : JsonValue) : String :=
  match value with
  | .str s =>
    if 100 < s.length then
      "[POW Service] Token[" ++ key ++ "]: <string, length=" ++ toString s.length ++ ">"
    else
      "[POW Service] Token[" ++ key ++ "]: " ++ s
  | v => "[POW Service] Token[" ++ key ++ "]: " ++ pyStr v

/-- Lines 94–101: derive `device_id` from the token payload when the
envelope's value is falsy.  Returns the `token_data` and `device_id`
variables after the block.  Both parse failures and the `AttributeError`
of `.get` on a non-dict payload are swallowed by the source's bare
`except: pass`; in the latter case `token_data` keeps the parsed value
because the assignment happened before the raise. -/
def deviceIdBackfill (token device_id : JsonValue) : Option JsonValue × JsonValue :=
  if pyTruthy device_id then (none, device_id)
  else match token with
    | .str t =>
      match jsonLoads t with
      | some (.obj tf) => (some (.obj tf), dictGet tf "id")
      | some td => (some td, device_id)
      | none => (none, device_id)
    | _ => (none, device_id)

/-- Lines 111–117: if `token_data` is falsy, try to parse the token again
for the structure dump, logging `Token is not valid JSON` on failure. -/
def reparseForDump (token : JsonValue) (token_data : Option JsonValue) :
    Option JsonValue × List LogEntry :=
  if optTruthy token_data then (token_data, [])
  else match token with
    | .str t =>
      match jsonLoads t with
      | some td => (some td, [])
      | none => (none, [notJsonEntry])
    | _ => (none, [notJsonEntry])

/-- Lines 119–125: the structure dump, run only when `token_data` is
truthy; `.keys()` on a non-dict raises (into the outer handler). -/
def structDump (token_data : Option JsonValue) : Except String (List LogEntry) :=
  if optTruthy token_data then
    match token_data with
    | some (.obj tf) =>
      .ok (.info (tokenKeysLine tf) ::
        tf.map (fun kv => LogEntry.info (tokenItemLine kv.1 kv.2)))
    | some v => .error (noAttrMessage v "keys")
    | none => .ok []
  else .ok []

/-- Lines 94–129: everything after the empty-token check.  `l0` is the
log written so far; an `Except.error` carries a raised exception's
message together with the log at the raise point. -/
def tokenStep (token device_id user_agent cached : JsonValue) (l0 : List LogEntry) :
    Except (String × List LogEntry) (Option (JsonValue × JsonValue × JsonValue) × List LogEntry) :=
  let bf := deviceIdBackfill token device_id
  let cache_status := if pyTruthy cached then "cached" else "fresh"
  let l1 := l0 ++ [.info sepLine,
    .info ("[POW Service] Token obtained successfully (" ++ cache_status ++ ")")]
  match pyLen token with
  | .error e => .error (e, l1)
  | .ok n =>
    let l2 := l1 ++ [.info ("[POW Service] Token length: " ++ toString n),
      .info ("[POW Service] Device ID: " ++ pyStr bf.2),
      .info ("[POW Service] User Agent: " ++ pyStr user_agent)]
    let rp := reparseForDump token bf.1
    let l3 := l2 ++ rp.2
    match structDump rp.1 with
    | .error e => .error (e, l3)
    | .ok dumpLines => .ok (some (token, bf.2, user_agent), l3 ++ dumpLines ++ [.info sepLine])

/-- Lines 71–129: the envelope checks and everything after, for a parsed
dict body. -/
def envelopeStep (sc : Int) (text : String) (fields : List (String × JsonValue))
    (l0 : List LogEntry) :
    Except (String × List LogEntry) (Option (JsonValue × JsonValue × JsonValue) × List LogEntry) :=
  if !pyTruthy (dictGet fields "success") then
    .ok (none, l0 ++ [successFalseEntry sc text])
  else if !pyTruthy (dictGet fields "token") then
    .ok (none, l0 ++ [emptyTokenEntry sc text])
  else
    tokenStep (dictGet fields "token") (dictGet fields "device_id")
      (dictGet fields "user_agent") (dictGetD fields "cached" (.bool false)) l0

/-- Lines 49–129: the body of the `try` block, from the request log line
to the return of the triple. -/
def runBody (api_url : String) (net : NetOutcome) :
    Except (String × List LogEntry) (Option (JsonValue × JsonValue × JsonValue) × List LogEntry) :=
  let l0 : List LogEntry := [requestLogEntry api_url]
  match net with
  | .exc e => .error (e, l0)
  | .resp sc text =>
    if sc ≠ 200 then .ok (none, l0 ++ [upstreamFailEntry sc text])
    else
      match jsonLoads text with
      | none => .error (jsonDecodeMessage, l0)
      | some (.obj fields) => envelopeStep sc text fields l0
      | some v => .error (noAttrMessage v "get", l0)

/-- `proxies = {"http": proxy_url, "https": proxy_url} if proxy_url else None`
(`_request_sync`, line 17), applied to the `proxy_url` resolved at line 30. -/
def resolveProxies : Option String → Option Proxies
  | some p => if p = "" then none else some { http := p, https := p }
  | none => none

/-- `f"{server_url.rstrip('/')}/api/pow/token"`. -/
def apiUrl (server_url : String) : String := rstripSlash server_url ++ "/api/pow/token"

/-- The request assembled at lines 42–57 and dispatched by `_request_sync`. -/
def mkRequest (api_url api_key : String) (proxy_url : Option String) : Request :=
  { url := api_url, authorization := "Bearer " ++ api_key,
    accept := "application/json", timeout := 30, proxies := resolveProxies proxy_url }

/-- `POWServiceClient.get_sentinel_token`, lines 20–138: config check,
request dispatch, envelope validation, diagnostics, and the unified
`except Exception` handler that converts any raise into `None` plus a
`RequestException` log entry. -/
def get_sentinel_token (cfg : Config) (net : NetOutcome) : SentinelResult :=
  let server_url := cfg.pow_service_server_url
  let api_key := cfg.pow_service_api_key
  let proxy_url : Option String :=
    if cfg.pow_service_proxy_enabled then some cfg.pow_service_proxy_url else none
  if server_url = "" ∨ api_key = "" then
    { result := none, log := [configMissingEntry], requests := [] }
  else
    let api_url := apiUrl server_url
    let req := mkRequest api_url api_key proxy_url
    match runBody api_url net with
    | .ok (res, log) => { result := res, log := log, requests := [req] }
    | .error (e, log) =>
      { result := none, log := log ++ [requestExceptionEntry e], requests := [req] }

def resultPart :
    Except (String × List LogEntry) (Option (JsonValue × JsonValue × JsonValue) × List LogEntry) →
      Option (JsonValue × JsonValue × JsonValue)
  | .ok (res, _) => res
  | .error _ => none

def theRequest (cfg : Config) : Request :=
  mkRequest (apiUrl cfg.pow_service_server_url) cfg.pow_service_api_key
    (if cfg.pow_service_proxy_enabled then some cfg.pow_service_proxy_url else none)

lemma gst_config_missing (cfg : Config) (net : NetOutcome)
    (h : cfg.pow_service_server_url = "" ∨ cfg.pow_service_api_key = "") :
    get_sentinel_token cfg net =
      { result := none, log := [configMissingEntry], requests := [] } := by
  simp only [get_sentinel_token]
  rw [if_pos h]

lemma gst_eq (cfg : Config) (net : NetOutcome)
    (h1 : cfg.pow_service_server_url ≠ "") (h2 : cfg.pow_service_api_key ≠ "") :
    get_sentinel_token cfg net =
      match runBody (apiUrl cfg.pow_service_server_url) net with
      | .ok (res, log) => { result := res, log := log, requests := [theRequest cfg] }
      | .error (e, log) =>
        { result := none, log := log ++ [requestExceptionEntry e], requests := [theRequest cfg] } := by
  simp only [get_sentinel_token, theRequest]
  rw [if_neg (by simp [h1, h2])]

lemma runBody_exc (u e : String) : runBody u (.exc e) = .error (e, [requestLogEntry u]) := rfl

lemma runBody_non200 (u : String) (sc : Int) (text : String) (h : sc ≠ 200) :
    runBody u (.resp sc text) = .ok (none, [requestLogEntry u, upstreamFailEntry sc text]) := by
  simp [runBody, h]

lemma runBody_200_obj (u text : String) (fields : List (String × JsonValue))
    (h : jsonLoads text = some (.obj fields)) :
    runBody u (.resp 200 text) = envelopeStep 200 text fields [requestLogEntry u] := by
  simp [runBody, h]

lemma runBody_200_badjson (u text : String) (h : jsonLoads text = none) :
    runBody u (.resp 200 text) = .error (jsonDecodeMessage, [requestLogEntry u]) := by
  simp [runBody, h]

lemma envelopeStep_noSuccess (sc : Int) (text : String) (fields : List (String × JsonValue))
    (l0 : List LogEntry) (h : pyTruthy (dictGet fields "success") = false) :
    envelopeStep sc text fields l0 = .ok (none, l0 ++ [successFalseEntry sc text]) := by
  simp [envelopeStep, h]

lemma envelopeStep_emptyToken (sc : Int) (text : String) (fields : List (String × JsonValue))
    (l0 : List LogEntry) (hs : pyTruthy (dictGet fields "success") = true)
    (ht : pyTruthy (dictGet fields "token") = false) :
    envelopeStep sc text fields l0 = .ok (none, l0 ++ [emptyTokenEntry sc text]) := by
  simp [envelopeStep, hs, ht]

lemma envelopeStep_token (sc : Int) (text : String) (fields : List (String × JsonValue))
    (l0 : List LogEntry) (hs : pyTruthy (dictGet fields "success") = true)
    (ht : pyTruthy (dictGet fields "token") = true) :
    envelopeStep sc text fields l0 =
      tokenStep (dictGet fields "token") (dictGet fields "device_id")
        (dictGet fields "user_agent") (dictGetD fields "cached" (.bool false)) l0 := by
  simp [envelopeStep, hs, ht]

def successInfoLines (t : String) (dev ua cached : JsonValue) : List LogEntry :=
  [.info sepLine,
   .info ("[POW Service] Token obtained successfully (" ++
     (if pyTruthy cached then "cached" else "fresh") ++ ")"),
   .info ("[POW Service] Token length: " ++ toString t.length),
   .info ("[POW Service] Device ID: " ++ pyStr dev),
   .info ("[POW Service] User Agent: " ++ pyStr ua)]

lemma tokenStep_str_parseNone (t : String) (dev ua cached : JsonValue) (l0 : List LogEntry)
    (h : jsonLoads t = none) :
    tokenStep (.str t) dev ua cached l0 =
      .ok (some (.str t, dev, ua),
        l0 ++ successInfoLines t dev ua cached ++ [notJsonEntry, .info sepLine]) := by
  have hbf : deviceIdBackfill (.str t) dev = (none, dev) := by
    simp only [deviceIdBackfill, h]
    split <;> rfl
  simp only [tokenStep, hbf, reparseForDump, optTruthy, h, structDump, successInfoLines, pyLen]
  simp

lemma tokenStep_str_parseObj (t : String) (tf : List (String × JsonValue))
    (dev ua cached : JsonValue) (l0 : List LogEntry)
    (h : jsonLoads t = some (.obj tf)) :
    tokenStep (.str t) dev ua cached l0 =
      .ok (some (.str t, (if pyTruthy dev then dev else dictGet tf "id"), ua),
        l0 ++ successInfoLines t (if pyTruthy dev then dev else dictGet tf "id") ua cached ++
          (if tf.isEmpty then [] else
            .info (tokenKeysLine tf) ::
              tf.map (fun kv => LogEntry.info (tokenItemLine kv.1 kv.2))) ++ [.info sepLine]) := by
  have hot : optTruthy (some (.obj tf)) = !tf.isEmpty := rfl
  have hsd : structDump (some (.obj tf)) =
      .ok (if tf.isEmpty then [] else
        .info (tokenKeysLine tf) :: tf.map (fun kv => LogEntry.info (tokenItemLine kv.1 kv.2))) := by
    by_cases htf : tf.isEmpty <;> simp [structDump, hot, htf]
  by_cases hdev : pyTruthy dev = true
  · have hbf : deviceIdBackfill (.str t) dev = (none, dev) := by
      simp [deviceIdBackfill, hdev]
    have hrp : reparseForDump (.str t) none = (some (.obj tf), []) := by
      simp [reparseForDump, optTruthy, h]
    simp [tokenStep, hbf, hrp, hsd, hdev, successInfoLines, pyLen]
  · have hbf : deviceIdBackfill (.str t) dev = (some (.obj tf), dictGet tf "id") := by
      simp [deviceIdBackfill, hdev, h]
    have hrp : reparseForDump (.str t) (some (.obj tf)) = (some (.obj tf), []) := by
      by_cases htf : tf.isEmpty
      · simp [reparseForDump, hot, htf, h]
      · simp [reparseForDump, hot, htf]
    simp [tokenStep, hbf, hrp, hsd, hdev, successInfoLines, pyLen]

lemma tokenStep_str_parseOther (t : String) (v : JsonValue)
    (dev ua cached : JsonValue) (l0 : List LogEntry)
    (h : jsonLoads t = some v) (hno : ∀ tf, v ≠ .obj tf) :
    tokenStep (.str t) dev ua cached l0 =
      (if pyTruthy v then
        .error (noAttrMessage v "keys",
          l0 ++ successInfoLines t dev ua cached)
      else
        .ok (some (.str t, dev, ua),
          l0 ++ successInfoLines t dev ua cached ++ [.info sepLine])) := by
  have hot : optTruthy (some v) = pyTruthy v := rfl
  have hbf : deviceIdBackfill (.str t) dev = (some v, dev) ∨
      deviceIdBackfill (.str t) dev = (none, dev) := by
    by_cases hdev : pyTruthy dev = true
    · right; simp [deviceIdBackfill, hdev]
    · left
      cases v with
      | obj tf => exact absurd rfl (hno tf)
      | null => simp [deviceIdBackfill, hdev, h]
      | bool b => simp [deviceIdBackfill, hdev, h]
      | num n => simp [deviceIdBackfill, hdev, h]
      | str s => simp [deviceIdBackfill, hdev, h]
      | arr xs => simp [deviceIdBackfill, hdev, h]
  have hsd : structDump (some v) =
      (if pyTruthy v then .error (noAttrMessage v "keys") else .ok []) := by
    by_cases hv : pyTruthy v = true
    · cases v with
      | obj tf => exact absurd rfl (hno tf)
      | null => simp [structDump, hot, hv]
      | bool b => simp [structDump, hot, hv]
      | num n => simp [structDump, hot, hv]
      | str s => simp [structDump, hot, hv]
      | arr xs => simp [structDump, hot, hv]
    · simp [structDump, hot, hv]
  rcases hbf with hbf | hbf
  · have hrp : reparseForDump (.str t) (some v) = (some v, []) := by
      by_cases hv : pyTruthy v = true
      · simp [reparseForDump, hot, hv]
      · simp [reparseForDump, hot, hv, h]
    by_cases hv : pyTruthy v = true <;>
      simp [tokenStep, hbf, hrp, hsd, hv, successInfoLines, pyLen]
  · have hrp : reparseForDump (.str t) none = (some v, []) := by
      simp [reparseForDump, optTruthy, h]
    by_cases hv : pyTruthy v = true <;>
      simp [tokenStep, hbf, hrp, hsd, hv, successInfoLines, pyLen]

/-! ## Concrete fixtures -/

/-- A fully configured client: server URL (with a trailing slash the code
strips), API key, proxy disabled. -/
def cfgEx : Config :=
  { pow_service_server_url := "http://pow.example/"
    pow_service_api_key := "k1"
    pow_service_proxy_enabled := false
    pow_service_proxy_url := "" }

/-- Proxy enabled with a configured proxy URL. -/
def cfgProxy : Config :=
  { pow_service_server_url := "http://pow.example"
    pow_service_api_key := "k1"
    pow_service_proxy_enabled := true
    pow_service_proxy_url := "http://proxy:8080" }

/-- Proxy disabled but a proxy URL still configured. -/
def cfgProxyOff : Config :=
  { pow_service_server_url := "http://pow.example"
    pow_service_api_key := "k1"
    pow_service_proxy_enabled := false
    pow_service_proxy_url := "http://proxy:8080" }

/-- Server URL configured but the API key empty. -/
def cfgNoKey : Config :=
  { pow_service_server_url := "http://pow.example"
    pow_service_api_key := ""
    pow_service_proxy_enabled := true
    pow_service_proxy_url := "http://proxy:8080" }

/-! ## Claim theorems -/

/-- C2: whenever the base URL or the API key is empty, `get_sentinel_token`
logs exactly the configuration error and returns `None`, and the list of
dispatched requests is empty (the dispatch step is never reached). -/
theorem pow_C2_config_missing (cfg : Config) (net : NetOutcome)
    (h : cfg.pow_service_server_url = "" ∨ cfg.pow_service_api_key = "") :
    get_sentinel_token cfg net =
      { result := none, log := [configMissingEntry], requests := [] } :=
  gst_config_missing cfg net h

/-- Witness for C2 at a concrete configuration with an empty API key. -/
theorem pow_C2_config_missing_witness :
    (cfgNoKey.pow_service_server_url = "" ∨ cfgNoKey.pow_service_api_key = "") ∧
    get_sentinel_token cfgNoKey (.resp 200 "\x7b\"success\": true\x7d") =
      { result := none, log := [configMissingEntry], requests := [] } :=
  ⟨Or.inr rfl, pow_C2_config_missing cfgNoKey _ (Or.inr rfl)⟩

/-- C3: if the body of the `try` block raises (any exception during
dispatch, validation, parsing or diagnostics), the call returns `None` and
the log is the log written so far followed by the `RequestException` entry
carrying the error text; no exception escapes (`get_sentinel_token` is a
total function in this model). -/
theorem pow_C3_exception_caught (cfg : Config) (net : NetOutcome) (e : String)
    (log : List LogEntry)
    (h1 : cfg.pow_service_server_url ≠ "") (h2 : cfg.pow_service_api_key ≠ "")
    (hraise : runBody (apiUrl cfg.pow_service_server_url) net = .error (e, log)) :
    (get_sentinel_token cfg net).result = none ∧
    (get_sentinel_token cfg net).log = log ++ [requestExceptionEntry e] := by
  rw [gst_eq cfg net h1 h2, hraise]
  exact ⟨rfl, rfl⟩

/-- Witness for C3 at a concrete raised network timeout. -/
theorem pow_C3_exception_caught_witness :
    (get_sentinel_token cfgEx (.exc "Connection timed out")).result = none ∧
    (get_sentinel_token cfgEx (.exc "Connection timed out")).log =
      [requestLogEntry (apiUrl "http://pow.example/")] ++
        [requestExceptionEntry "Connection timed out"] :=
  pow_C3_exception_caught cfgEx _ "Connection timed out" _ (by decide) (by decide) rfl

/-- C5: a response with any status other than 200 yields `None`, and the
log is the request line followed by the failure entry, which carries the
numeric status code both in its message and in its `status_code` field and
the raw body in its `response_text` field. -/
theorem pow_C5_non200 (cfg : Config) (sc : Int) (text : String)
    (h1 : cfg.pow_service_server_url ≠ "") (h2 : cfg.pow_service_api_key ≠ "")
    (hsc : sc ≠ 200) :
    (get_sentinel_token cfg (.resp sc text)).result = none ∧
    (get_sentinel_token cfg (.resp sc text)).log =
      [requestLogEntry (apiUrl cfg.pow_service_server_url), upstreamFailEntry sc text] := by
  rw [gst_eq cfg _ h1 h2, runBody_non200 _ _ _ hsc]
  exact ⟨rfl, rfl⟩

/-- Witness for C5 at a concrete 500 response. -/
theorem pow_C5_non200_witness :
    (get_sentinel_token cfgEx (.resp 500 "oops")).result = none ∧
    (get_sentinel_token cfgEx (.resp 500 "oops")).log =
      [requestLogEntry (apiUrl "http://pow.example/"), upstreamFailEntry 500 "oops"] :=
  pow_C5_non200 cfgEx 500 "oops" (by decide) (by decide) (by decide)

/-- The dispatched request list depends only on the configuration. -/
lemma gst_requests (cfg : Config) (net : NetOutcome)
    (h1 : cfg.pow_service_server_url ≠ "") (h2 : cfg.pow_service_api_key ≠ "") :
    (get_sentinel_token cfg net).requests = [theRequest cfg] := by
  rw [gst_eq cfg net h1 h2]
  cases hrb : runBody (apiUrl cfg.pow_service_server_url) net with
  | error p => obtain ⟨e, log⟩ := p; rfl
  | ok p => obtain ⟨res, log⟩ := p; rfl

/-- C8: with the proxy flag set and a non-empty proxy URL, the one
dispatched request routes both the `http` and the `https` scheme through
that URL; with the flag unset, no proxy is applied even when a proxy URL
is configured. -/
theorem pow_C8_proxy (cfg : Config) (net : NetOutcome)
    (h1 : cfg.pow_service_server_url ≠ "") (h2 : cfg.pow_service_api_key ≠ "") :
    (cfg.pow_service_proxy_enabled = true → cfg.pow_service_proxy_url ≠ "" →
      (get_sentinel_token cfg net).requests =
        [{ url := apiUrl cfg.pow_service_server_url
           authorization := "Bearer " ++ cfg.pow_service_api_key
           accept := "application/json"
           timeout := 30
           proxies := some { http := cfg.pow_service_proxy_url
                             https := cfg.pow_service_proxy_url } }]) ∧
    (cfg.pow_service_proxy_enabled = false →
      (get_sentinel_token cfg net).requests =
        [{ url := apiUrl cfg.pow_service_server_url
           authorization := "Bearer " ++ cfg.pow_service_api_key
           accept := "application/json"
           timeout := 30
           proxies := none }]) := by
  constructor
  · intro hen hurl
    rw [gst_requests cfg net h1 h2]
    simp [theRequest, mkRequest, resolveProxies, hen, hurl]
  · intro hen
    rw [gst_requests cfg net h1 h2]
    simp [theRequest, mkRequest, resolveProxies, hen]

/-- Witness for C8: the enabled case at `cfgProxy` and the disabled case
at `cfgProxyOff` (which still has a configured proxy URL). -/
theorem pow_C8_proxy_witness :
    (get_sentinel_token cfgProxy (.exc "t")).requests =
      [{ url := "http://pow.example/api/pow/token"
         authorization := "Bearer k1"
         accept := "application/json"
         timeout := 30
         proxies := some { http := "http://proxy:8080", https := "http://proxy:8080" } }] ∧
    (get_sentinel_token cfgProxyOff (.exc "t")).requests =
      [{ url := "http://pow.example/api/pow/token"
         authorization := "Bearer k1"
         accept := "application/json"
         timeout := 30
         proxies := none }] :=
  ⟨(pow_C8_proxy cfgProxy _ (by decide) (by decide)).1 rfl (by decide),
   (pow_C8_proxy cfgProxyOff _ (by decide) (by decide)).2 rfl⟩

/-- When the token string does not parse, the backfill block leaves both
`token_data` and `device_id` unchanged. -/
lemma deviceIdBackfill_parseNone (t : String) (dev : JsonValue) (h : jsonLoads t = none) :
    deviceIdBackfill (.str t) dev = (none, dev) := by
  simp only [deviceIdBackfill, h]
  split <;> rfl

/-- The `device_id` resulting from the backfill when the token parses to
an object. -/
lemma deviceIdBackfill_snd_obj (t : String) (tf : List (String × JsonValue)) (dev : JsonValue)
    (h : jsonLoads t = some (.obj tf)) :
    (deviceIdBackfill (.str t) dev).2 = if pyTruthy dev then dev else dictGet tf "id" := by
  by_cases hdev : pyTruthy dev = true <;> simp [deviceIdBackfill, hdev, h]

/-- The `device_id` is unchanged when the token parses to a non-object
(the swallowed `AttributeError` case). -/
lemma deviceIdBackfill_snd_other (t : String) (v dev : JsonValue)
    (h : jsonLoads t = some v) (hno : ∀ tf, v ≠ .obj tf) :
    (deviceIdBackfill (.str t) dev).2 = dev := by
  by_cases hdev : pyTruthy dev = true
  · simp [deviceIdBackfill, hdev]
  · cases v with
    | obj tf => exact absurd rfl (hno tf)
    | null => simp [deviceIdBackfill, hdev, h]
    | bool b => simp [deviceIdBackfill, hdev, h]
    | num n => simp [deviceIdBackfill, hdev, h]
    | str s => simp [deviceIdBackfill, hdev, h]
    | arr xs => simp [deviceIdBackfill, hdev, h]

/-- A non-empty string token is truthy. -/
lemma pyTruthy_str_ne (t : String) (h : t ≠ "") : pyTruthy (.str t) = true := by
  simp [pyTruthy, h]

/-- 200 response whose body is `{"success": 1, "token": "abc123"}`: the
envelope has no `success: true` (its `success` is the number 1), yet the
call returns the triple instead of Absent, because the code tests only
Python truthiness of the field. -/
def bodyNumSuccess : String := "\x7b\"success\": 1, \"token\": \"abc123\"\x7d"

/-- C6 counterexample: a 200 envelope whose `success` field is the truthy
number 1 — so it lacks `success: true` — still yields the token triple,
not Absent. -/
theorem pow_C6_counterexample :
    jsonLoads bodyNumSuccess = some (.obj [("success", .num 1), ("token", .str "abc123")]) ∧
    (get_sentinel_token cfgEx (.resp 200 bodyNumSuccess)).result =
      some (.str "abc123", .null, .null) :=
  ⟨rfl, rfl⟩

/-- C6 (amended): for a 200 response, (i) an unparsable body raises into
the exception handler and yields `None` with a logged `RequestException`;
(ii) a parsed envelope whose `success` field is falsy (false, absent,
null, 0, empty) yields `None` with the success=false error logged;
(iii) a truthy `success` with a falsy `token` field (missing, empty, 0,
false, null) yields `None` with the empty-token error logged. -/
theorem pow_C6_invalid_envelope :
    (∀ (cfg : Config) (text : String),
      cfg.pow_service_server_url ≠ "" → cfg.pow_service_api_key ≠ "" →
      jsonLoads text = none →
      (get_sentinel_token cfg (.resp 200 text)).result = none ∧
      (get_sentinel_token cfg (.resp 200 text)).log =
        [requestLogEntry (apiUrl cfg.pow_service_server_url),
         requestExceptionEntry jsonDecodeMessage]) ∧
    (∀ (cfg : Config) (text : String) (fields : List (String × JsonValue)),
      cfg.pow_service_server_url ≠ "" → cfg.pow_service_api_key ≠ "" →
      jsonLoads text = some (.obj fields) →
      pyTruthy (dictGet fields "success") = false →
      (get_sentinel_token cfg (.resp 200 text)).result = none ∧
      (get_sentinel_token cfg (.resp 200 text)).log =
        [requestLogEntry (apiUrl cfg.pow_service_server_url),
         successFalseEntry 200 text]) ∧
    (∀ (cfg : Config) (text : String) (fields : List (String × JsonValue)),
      cfg.pow_service_server_url ≠ "" → cfg.pow_service_api_key ≠ "" →
      jsonLoads text = some (.obj fields) →
      pyTruthy (dictGet fields "success") = true →
      pyTruthy (dictGet fields "token") = false →
      (get_sentinel_token cfg (.resp 200 text)).result = none ∧
      (get_sentinel_token cfg (.resp 200 text)).log =
        [requestLogEntry (apiUrl cfg.pow_service_server_url),
         emptyTokenEntry 200 text]) := by
  refine ⟨?_, ?_, ?_⟩
  · intro cfg text h1 h2 hbad
    rw [gst_eq cfg _ h1 h2, runBody_200_badjson _ _ hbad]
    exact ⟨rfl, rfl⟩
  · intro cfg text fields h1 h2 hparse hs
    rw [gst_eq cfg _ h1 h2, runBody_200_obj _ _ _ hparse,
      envelopeStep_noSuccess _ _ _ _ hs]
    exact ⟨rfl, rfl⟩
  · intro cfg text fields h1 h2 hparse hs ht
    rw [gst_eq cfg _ h1 h2, runBody_200_obj _ _ _ hparse,
      envelopeStep_emptyToken _ _ _ _ hs ht]
    exact ⟨rfl, rfl⟩

/-- Witness for C6 discharging the hypotheses of all three conjuncts at
concrete responses: an unparsable body, `{"success": false}`, and
`{"success": true, "token": ""}`. -/
theorem pow_C6_invalid_envelope_witness :
    ((get_sentinel_token cfgEx (.resp 200 "not json")).result = none) ∧
    ((get_sentinel_token cfgEx (.resp 200 "\x7b\"success\": false\x7d")).result = none) ∧
    ((get_sentinel_token cfgEx (.resp 200 "\x7b\"success\": true, \"token\": \"\"\x7d")).result = none) :=
  ⟨(pow_C6_invalid_envelope.1 cfgEx "not json" (by decide) (by decide) rfl).1,
   (pow_C6_invalid_envelope.2.1 cfgEx "\x7b\"success\": false\x7d" [("success", .bool false)]
     (by decide) (by decide) rfl rfl).1,
   (pow_C6_invalid_envelope.2.2 cfgEx "\x7b\"success\": true, \"token\": \"\"\x7d"
     [("success", .bool true), ("token", .str "")]
     (by decide) (by decide) rfl rfl rfl).1⟩

/-- C7: for a successful envelope whose `device_id` is absent (null), if
the token string parses to a JSON object the returned device id is that
object's `id` field; if the token does not parse as JSON the failure is
silently tolerated: the device id stays `None`, the call still returns
the triple, and no error entry appears in the log. -/
theorem pow_C7_device_backfill (cfg : Config) (text t : String)
    (fields : List (String × JsonValue))
    (h1 : cfg.pow_service_server_url ≠ "") (h2 : cfg.pow_service_api_key ≠ "")
    (hparse : jsonLoads text = some (.obj fields))
    (hsucc : pyTruthy (dictGet fields "success") = true)
    (htok : dictGet fields "token" = .str t) (hne : t ≠ "")
    (hdev : dictGet fields "device_id" = .null) :
    (∀ tf, jsonLoads t = some (.obj tf) →
      (get_sentinel_token cfg (.resp 200 text)).result =
        some (.str t, dictGet tf "id", dictGet fields "user_agent")) ∧
    (jsonLoads t = none →
      (get_sentinel_token cfg (.resp 200 text)).result =
        some (.str t, .null, dictGet fields "user_agent") ∧
      ((get_sentinel_token cfg (.resp 200 text)).log.all fun entry => !entry.isError) = true) := by
  have ht : pyTruthy (dictGet fields "token") = true := by
    rw [htok]; exact pyTruthy_str_ne t hne
  have hmain := gst_eq cfg (.resp 200 text) h1 h2
  rw [runBody_200_obj _ _ _ hparse, envelopeStep_token _ _ _ _ hsucc ht, htok, hdev] at hmain
  constructor
  · intro tf hp
    rw [tokenStep_str_parseObj _ tf _ _ _ _ hp] at hmain
    rw [hmain]
    simp [pyTruthy]
  · intro hp
    rw [tokenStep_str_parseNone _ _ _ _ _ hp] at hmain
    rw [hmain]
    refine ⟨rfl, ?_⟩
    simp [successInfoLines, requestLogEntry, notJsonEntry, LogEntry.isError]

def bodyBackfill : String :=
  "\x7b\"success\": true, \"token\": \"\x7b\\\"id\\\":\\\"dev-42\\\"\x7d\"\x7d"

def bodyPlainTok : String := "\x7b\"success\": true, \"token\": \"abc123\"\x7d"

/-- Witness for C7: backfill from `{"id":"dev-42"}` and silent tolerance
for a non-JSON token. -/
theorem pow_C7_device_backfill_witness :
    (get_sentinel_token cfgEx (.resp 200 bodyBackfill)).result =
      some (.str "\x7b\"id\":\"dev-42\"\x7d", .str "dev-42", .null) ∧
    (get_sentinel_token cfgEx (.resp 200 bodyPlainTok)).result =
      some (.str "abc123", .null, .null) ∧
    ((get_sentinel_token cfgEx (.resp 200 bodyPlainTok)).log.all fun entry => !entry.isError) = true := by
  refine ⟨?_, ?_, ?_⟩
  · exact ((pow_C7_device_backfill cfgEx bodyBackfill "\x7b\"id\":\"dev-42\"\x7d"
      [("success", .bool true), ("token", .str "\x7b\"id\":\"dev-42\"\x7d")]
      (by decide) (by decide) rfl rfl rfl (by decide) rfl).1
        [("id", .str "dev-42")] rfl).trans rfl
  · exact ((pow_C7_device_backfill cfgEx bodyPlainTok "abc123"
      [("success", .bool true), ("token", .str "abc123")]
      (by decide) (by decide) rfl rfl rfl (by decide) rfl).2 rfl).1.trans rfl
  · exact ((pow_C7_device_backfill cfgEx bodyPlainTok "abc123"
      [("success", .bool true), ("token", .str "abc123")]
      (by decide) (by decide) rfl rfl rfl (by decide) rfl).2 rfl).2

def bodyTokenList : String :=
  "\x7b\"success\": true, \"token\": \"[1]\", \"device_id\": \"d1\", \"user_agent\": \"u\"\x7d"

/-- C1 counterexample: a 200 envelope with `success: true` and the
non-empty token string `"[1]"` (with device id and user agent both
present) returns Absent, not the triple — the diagnostic dump calls
`.keys()` on the parsed list and the raised `AttributeError` aborts the
call. -/
theorem pow_C1_counterexample :
    jsonLoads bodyTokenList =
      some (.obj [("success", .bool true), ("token", .str "[1]"),
        ("device_id", .str "d1"), ("user_agent", .str "u")]) ∧
    "[1]" ≠ "" ∧
    (get_sentinel_token cfgEx (.resp 200 bodyTokenList)).result = none :=
  ⟨rfl, by decide, rfl⟩

/-- C1 (amended): for a 200 envelope with a truthy `success` and a
non-empty token string, provided the token string does not parse to a
truthy non-object JSON value (such tokens crash the diagnostic dump),
the call returns the triple: the token and user agent from the envelope
and the device id after the backfill block. -/
theorem pow_C1_success_triple (cfg : Config) (text t : String)
    (fields : List (String × JsonValue))
    (h1 : cfg.pow_service_server_url ≠ "") (h2 : cfg.pow_service_api_key ≠ "")
    (hparse : jsonLoads text = some (.obj fields))
    (hsucc : pyTruthy (dictGet fields "success") = true)
    (htok : dictGet fields "token" = .str t) (hne : t ≠ "")
    (hdiag : ∀ v, jsonLoads t = some v → pyTruthy v = true → ∃ tf, v = .obj tf) :
    (get_sentinel_token cfg (.resp 200 text)).result =
      some (.str t, (deviceIdBackfill (.str t) (dictGet fields "device_id")).2,
        dictGet fields "user_agent") := by
  have ht : pyTruthy (dictGet fields "token") = true := by
    rw [htok]; exact pyTruthy_str_ne t hne
  have hmain := gst_eq cfg (.resp 200 text) h1 h2
  rw [runBody_200_obj _ _ _ hparse, envelopeStep_token _ _ _ _ hsucc ht, htok] at hmain
  cases hp : jsonLoads t with
  | none =>
    rw [tokenStep_str_parseNone _ _ _ _ _ hp] at hmain
    rw [hmain, deviceIdBackfill_parseNone _ _ hp]
  | some v =>
    by_cases hobj : ∃ tf, v = .obj tf
    · obtain ⟨tf, rfl⟩ := hobj
      rw [tokenStep_str_parseObj _ tf _ _ _ _ hp] at hmain
      rw [hmain, deviceIdBackfill_snd_obj _ tf _ hp]
    · have hv : pyTruthy v = false := by
        rcases Bool.eq_false_or_eq_true (pyTruthy v) with h | h
        · exact absurd (hdiag v hp h) hobj
        · exact h
      rw [tokenStep_str_parseOther _ v _ _ _ _ hp (fun tf he => hobj ⟨tf, he⟩),
        if_neg (by simp [hv])] at hmain
      rw [hmain, deviceIdBackfill_snd_other _ v _ hp (fun tf he => hobj ⟨tf, he⟩)]

def bodyC1full : String :=
  "\x7b\"success\": true, \"token\": \"abc123\", \"device_id\": \"d1\", \"user_agent\": \"UA/1.0\"\x7d"

/-- Witness for C1 at the envelope named by the claim, returning exactly
`("abc123", "d1", "UA/1.0")`. -/
theorem pow_C1_success_triple_witness :
    (get_sentinel_token cfgEx (.resp 200 bodyC1full)).result =
      some (.str "abc123", .str "d1", .str "UA/1.0") := by
  have h := pow_C1_success_triple cfgEx bodyC1full "abc123"
    [("success", .bool true), ("token", .str "abc123"),
     ("device_id", .str "d1"), ("user_agent", .str "UA/1.0")]
    (by decide) (by decide) rfl rfl rfl (by decide)
    (fun v hv _ => by rw [show jsonLoads "abc123" = none from rfl] at hv; cases hv)
  exact h.trans rfl

/-- The returned value of the post-token stage does not depend on the
`cached` value or the log prefix. -/
lemma resultPart_tokenStep_indep (token dev ua c1 c2 : JsonValue) (l0 l0' : List LogEntry) :
    resultPart (tokenStep token dev ua c1 l0) = resultPart (tokenStep token dev ua c2 l0') := by
  simp only [tokenStep]
  cases pyLen token with
  | error e => rfl
  | ok n =>
    cases structDump (reparseForDump token (deviceIdBackfill token dev).1).1 with
    | error e => rfl
    | ok dl => rfl

/-- The returned value of a configured call is the result part of the
`try`-block body. -/
lemma gst_result (cfg : Config) (net : NetOutcome)
    (h1 : cfg.pow_service_server_url ≠ "") (h2 : cfg.pow_service_api_key ≠ "") :
    (get_sentinel_token cfg net).result =
      resultPart (runBody (apiUrl cfg.pow_service_server_url) net) := by
  rw [gst_eq cfg net h1 h2]
  cases hrb : runBody (apiUrl cfg.pow_service_server_url) net with
  | error p => obtain ⟨e, log⟩ := p; rfl
  | ok p => obtain ⟨res, log⟩ := p; rfl

/-- C10: two calls whose parsed 200 envelopes agree on every field other
than `cached` produce the same returned value and the same dispatched
requests: the `cached` flag feeds only the cached-vs-fresh diagnostic
line. -/
theorem pow_C10_cached_no_influence (cfg : Config) (sc : Int) (text1 text2 : String)
    (o1 o2 : List (String × JsonValue))
    (hp1 : jsonLoads text1 = some (.obj o1)) (hp2 : jsonLoads text2 = some (.obj o2))
    (hagree : ∀ k, k ≠ "cached" → dictGet o1 k = dictGet o2 k) :
    (get_sentinel_token cfg (.resp sc text1)).result =
      (get_sentinel_token cfg (.resp sc text2)).result ∧
    (get_sentinel_token cfg (.resp sc text1)).requests =
      (get_sentinel_token cfg (.resp sc text2)).requests := by
  by_cases hc : cfg.pow_service_server_url = "" ∨ cfg.pow_service_api_key = ""
  · rw [gst_config_missing cfg _ hc, gst_config_missing cfg _ hc]
    exact ⟨rfl, rfl⟩
  · push_neg at hc
    obtain ⟨h1, h2⟩ := hc
    refine ⟨?_, by rw [gst_requests cfg _ h1 h2, gst_requests cfg _ h1 h2]⟩
    rw [gst_result cfg _ h1 h2, gst_result cfg _ h1 h2]
    by_cases hsc : sc = 200
    · subst hsc
      rw [runBody_200_obj _ _ _ hp1, runBody_200_obj _ _ _ hp2]
      have hs := hagree "success" (by decide)
      have htk := hagree "token" (by decide)
      have hd := hagree "device_id" (by decide)
      have hu := hagree "user_agent" (by decide)
      by_cases hsb : pyTruthy (dictGet o1 "success") = true
      · have hsb2 : pyTruthy (dictGet o2 "success") = true := by rw [← hs]; exact hsb
        by_cases htb : pyTruthy (dictGet o1 "token") = true
        · have htb2 : pyTruthy (dictGet o2 "token") = true := by rw [← htk]; exact htb
          rw [envelopeStep_token _ _ _ _ hsb htb, envelopeStep_token _ _ _ _ hsb2 htb2,
            ← htk, ← hd, ← hu]
          exact resultPart_tokenStep_indep _ _ _ _ _ _ _
        · rw [Bool.not_eq_true] at htb
          have htb2 : pyTruthy (dictGet o2 "token") = false := by rw [← htk]; exact htb
          rw [envelopeStep_emptyToken _ _ _ _ hsb htb,
            envelopeStep_emptyToken _ _ _ _ hsb2 htb2]
          rfl
      · rw [Bool.not_eq_true] at hsb
        have hsb2 : pyTruthy (dictGet o2 "success") = false := by rw [← hs]; exact hsb
        rw [envelopeStep_noSuccess _ _ _ _ hsb, envelopeStep_noSuccess _ _ _ _ hsb2]
        rfl
    · rw [runBody_non200 _ _ _ hsc, runBody_non200 _ _ _ hsc]
      rfl

def bodyCachedTrue : String := "\x7b\"success\": true, \"token\": \"abc123\", \"cached\": true\x7d"
def bodyNoCached : String := "\x7b\"success\": true, \"token\": \"abc123\"\x7d"

/-- Witness for C10: `cached: true` present versus absent, same token. -/
theorem pow_C10_cached_no_influence_witness :
    (get_sentinel_token cfgEx (.resp 200 bodyCachedTrue)).result =
      (get_sentinel_token cfgEx (.resp 200 bodyNoCached)).result ∧
    (get_sentinel_token cfgEx (.resp 200 bodyCachedTrue)).requests =
      (get_sentinel_token cfgEx (.resp 200 bodyNoCached)).requests := by
  refine pow_C10_cached_no_influence cfgEx 200 bodyCachedTrue bodyNoCached
    [("success", .bool true), ("token", .str "abc123"), ("cached", .bool true)]
    [("success", .bool true), ("token", .str "abc123")] rfl rfl ?_
  intro k hk
  by_cases hs : k = "success"
  · subst hs; rfl
  · by_cases ht : k = "token"
    · subst ht; rfl
    · have e1 : (("success" : String) == k) = false := beq_eq_false_iff_ne.mpr (fun h => hs h.symm)
      have e2 : (("token" : String) == k) = false := beq_eq_false_iff_ne.mpr (fun h => ht h.symm)
      have e3 : (("cached" : String) == k) = false := beq_eq_false_iff_ne.mpr (fun h => hk h.symm)
      simp [dictGet, List.find?, e1, e2, e3]

/-- Two strings that differ at one position differ. -/
lemma str_ne_of_get (a b : String) (i : Nat) (h : a.data[i]? ≠ b.data[i]?) : a ≠ b :=
  fun he => h (he ▸ rfl)

/-- Two appends with concrete prefixes that differ inside the prefixes. -/
lemma ne_append_of_prefix_get (p q x y : String) (i : Nat)
    (hip : i < p.data.length) (hiq : i < q.data.length)
    (h : p.data[i]? ≠ q.data[i]?) : p ++ x ≠ q ++ y := by
  apply str_ne_of_get _ _ i
  show (p.data ++ x.data)[i]? ≠ (q.data ++ y.data)[i]?
  rw [List.getElem?_append_left hip, List.getElem?_append_left hiq]
  exact h

/-- A concrete string versus an append with a differing concrete prefix. -/
lemma ne_concrete_append (p q y : String) (i : Nat) (hiq : i < q.data.length)
    (h : p.data[i]? ≠ q.data[i]?) : p ≠ q ++ y := by
  apply str_ne_of_get _ _ i
  show p.data[i]? ≠ (q.data ++ y.data)[i]?
  rw [List.getElem?_append_left hiq]
  exact h

/-- The keys line always has its fixed prefix. -/
lemma tokenKeysLine_eq (tf : List (String × JsonValue)) :
    tokenKeysLine tf = "[POW Service] Token structure keys: [" ++
      (String.intercalate ", " (tf.map (fun kv => "\x27" ++ kv.1 ++ "\x27")) ++ "]") := by
  simp [tokenKeysLine, String.append_assoc]

/-- The per-key line always has its fixed prefix. -/
lemma tokenItemLine_eq (k : String) (v : JsonValue) :
    ∃ r, tokenItemLine k v = "[POW Service] Token[" ++ r := by
  cases v with
  | str s =>
    by_cases hl : 100 < s.length
    · exact ⟨k ++ "]: <string, length=" ++ toString s.length ++ ">",
        by simp [tokenItemLine, hl, String.append_assoc]⟩
    · exact ⟨k ++ "]: " ++ s, by simp [tokenItemLine, hl, String.append_assoc]⟩
  | null => exact ⟨k ++ "]: " ++ pyStr .null, by simp [tokenItemLine, String.append_assoc]⟩
  | bool b => exact ⟨k ++ "]: " ++ pyStr (.bool b), by simp [tokenItemLine, String.append_assoc]⟩
  | num n => exact ⟨k ++ "]: " ++ pyStr (.num n), by simp [tokenItemLine, String.append_assoc]⟩
  | arr xs => exact ⟨k ++ "]: " ++ pyStr (.arr xs), by simp [tokenItemLine, String.append_assoc]⟩
  | obj fs => exact ⟨k ++ "]: " ++ pyStr (.obj fs), by simp [tokenItemLine, String.append_assoc]⟩

/-- The not-valid-JSON info line differs from every other info line that
can appear on the success path, and from the keys line in particular. -/
lemma notJson_ne_keysLine (tf : List (String × JsonValue)) :
    "[POW Service] Token is not valid JSON" ≠ tokenKeysLine tf := by
  rw [tokenKeysLine_eq]
  exact ne_concrete_append _ _ _ 20 (by decide) (by decide)

lemma req_ne_keysLine (u : String) (tf : List (String × JsonValue)) :
    "[POW Service] Requesting token from " ++ u ≠ tokenKeysLine tf := by
  rw [tokenKeysLine_eq]
  exact ne_append_of_prefix_get _ _ _ _ 14 (by decide) (by decide) (by decide)

lemma sep_ne_keysLine (tf : List (String × JsonValue)) :
    sepLine ≠ tokenKeysLine tf := by
  rw [tokenKeysLine_eq]
  exact ne_concrete_append _ _ _ 0 (by decide) (by decide)

lemma obtained_ne_keysLine (cs : String) (tf : List (String × JsonValue)) :
    "[POW Service] Token obtained successfully (" ++ cs ++ ")" ≠ tokenKeysLine tf := by
  rw [tokenKeysLine_eq, String.append_assoc]
  exact ne_append_of_prefix_get _ _ _ _ 20 (by decide) (by decide) (by decide)

lemma lenline_ne_keysLine (s : String) (tf : List (String × JsonValue)) :
    "[POW Service] Token length: " ++ s ≠ tokenKeysLine tf := by
  rw [tokenKeysLine_eq]
  exact ne_append_of_prefix_get _ _ _ _ 20 (by decide) (by decide) (by decide)

lemma devline_ne_keysLine (s : String) (tf : List (String × JsonValue)) :
    "[POW Service] Device ID: " ++ s ≠ tokenKeysLine tf := by
  rw [tokenKeysLine_eq]
  exact ne_append_of_prefix_get _ _ _ _ 14 (by decide) (by decide) (by decide)

lemma ualine_ne_keysLine (s : String) (tf : List (String × JsonValue)) :
    "[POW Service] User Agent: " ++ s ≠ tokenKeysLine tf := by
  rw [tokenKeysLine_eq]
  exact ne_append_of_prefix_get _ _ _ _ 14 (by decide) (by decide) (by decide)

lemma req_ne_notJson (u : String) :
    "[POW Service] Requesting token from " ++ u ≠ "[POW Service] Token is not valid JSON" :=
  (ne_concrete_append _ _ _ 14 (by decide) (by decide)).symm

lemma obtained_ne_notJson (cs : String) :
    "[POW Service] Token obtained successfully (" ++ cs ++ ")" ≠
      "[POW Service] Token is not valid JSON" := by
  rw [String.append_assoc]
  exact (ne_concrete_append _ _ _ 20 (by decide) (by decide)).symm

lemma lenline_ne_notJson (s : String) :
    "[POW Service] Token length: " ++ s ≠ "[POW Service] Token is not valid JSON" :=
  (ne_concrete_append _ _ _ 20 (by decide) (by decide)).symm

lemma devline_ne_notJson (s : String) :
    "[POW Service] Device ID: " ++ s ≠ "[POW Service] Token is not valid JSON" :=
  (ne_concrete_append _ _ _ 14 (by decide) (by decide)).symm

lemma ualine_ne_notJson (s : String) :
    "[POW Service] User Agent: " ++ s ≠ "[POW Service] Token is not valid JSON" :=
  (ne_concrete_append _ _ _ 14 (by decide) (by decide)).symm

lemma keysLine_ne_notJson (tf : List (String × JsonValue)) :
    tokenKeysLine tf ≠ "[POW Service] Token is not valid JSON" :=
  (notJson_ne_keysLine tf).symm

lemma itemLine_ne_notJson (k : String) (v : JsonValue) :
    tokenItemLine k v ≠ "[POW Service] Token is not valid JSON" := by
  obtain ⟨r, hr⟩ := tokenItemLine_eq k v
  rw [hr]
  exact (ne_concrete_append _ _ _ 19 (by decide) (by decide)).symm

lemma sep_ne_notJson : sepLine ≠ "[POW Service] Token is not valid JSON" := by decide

/-- C4 (amended): on the success path, if the token string does not parse
as JSON, the `Token is not valid JSON` line is logged and no structure
dump appears; if it parses to a non-empty JSON object, the keys line and
one line per key are logged and the not-valid-JSON line does not appear.
(Tokens parsing to falsy JSON values produce neither — see the
counterexample — and truthy non-objects abort via the exception path.) -/
theorem pow_C4_diag (cfg : Config) (text t : String)
    (fields : List (String × JsonValue))
    (h1 : cfg.pow_service_server_url ≠ "") (h2 : cfg.pow_service_api_key ≠ "")
    (hparse : jsonLoads text = some (.obj fields))
    (hsucc : pyTruthy (dictGet fields "success") = true)
    (htok : dictGet fields "token" = .str t) (hne : t ≠ "") :
    (jsonLoads t = none →
      notJsonEntry ∈ (get_sentinel_token cfg (.resp 200 text)).log ∧
      ∀ tf, LogEntry.info (tokenKeysLine tf) ∉ (get_sentinel_token cfg (.resp 200 text)).log) ∧
    (∀ tf, jsonLoads t = some (.obj tf) → tf ≠ [] →
      LogEntry.info (tokenKeysLine tf) ∈ (get_sentinel_token cfg (.resp 200 text)).log ∧
      (∀ kv ∈ tf, LogEntry.info (tokenItemLine kv.1 kv.2) ∈
        (get_sentinel_token cfg (.resp 200 text)).log) ∧
      notJsonEntry ∉ (get_sentinel_token cfg (.resp 200 text)).log) := by
  have ht : pyTruthy (dictGet fields "token") = true := by
    rw [htok]; exact pyTruthy_str_ne t hne
  have hmain := gst_eq cfg (.resp 200 text) h1 h2
  rw [runBody_200_obj _ _ _ hparse, envelopeStep_token _ _ _ _ hsucc ht, htok] at hmain
  constructor
  · intro hp
    rw [tokenStep_str_parseNone _ _ _ _ _ hp] at hmain
    rw [hmain]
    constructor
    · simp
    · intro tf hmem
      simp only [successInfoLines, requestLogEntry, notJsonEntry, List.mem_append,
        List.mem_cons, List.not_mem_nil, or_false, false_or, List.mem_singleton] at hmem
      rcases hmem with ((h | h) | h | h | h | h | h) | h | h <;>
        injection h with h' <;>
        first
          | exact req_ne_keysLine _ _ h'.symm
          | exact sep_ne_keysLine _ h'.symm
          | exact obtained_ne_keysLine _ _ h'.symm
          | exact lenline_ne_keysLine _ _ h'.symm
          | exact devline_ne_keysLine _ _ h'.symm
          | exact ualine_ne_keysLine _ _ h'.symm
          | exact notJson_ne_keysLine _ h'.symm
  · intro tf hp htf
    have htfe : tf.isEmpty = false := by
      cases tf with
      | nil => exact absurd rfl htf
      | cons a l => rfl
    rw [tokenStep_str_parseObj _ tf _ _ _ _ hp] at hmain
    rw [hmain, htfe]
    refine ⟨by simp, fun kv hkv => ?_, ?_⟩
    · simp only [successInfoLines, Bool.false_eq_true, if_false, List.mem_append,
        List.mem_cons, List.mem_map]
      exact Or.inl (Or.inr (Or.inr ⟨kv, hkv, rfl⟩))
    · intro hmem
      simp only [successInfoLines, requestLogEntry, notJsonEntry, List.mem_append,
        List.mem_cons, List.not_mem_nil, or_false, false_or, List.mem_singleton,
        List.mem_map, Bool.false_eq_true, if_false] at hmem
      rcases hmem with ((h | h | h | h | h | h) | h | ⟨kv, hkv, h⟩) | h <;>
        injection h with h' <;>
        first
          | exact req_ne_notJson _ h'
          | exact sep_ne_notJson h'
          | exact obtained_ne_notJson _ h'
          | exact lenline_ne_notJson _ h'
          | exact devline_ne_notJson _ h'
          | exact ualine_ne_notJson _ h'
          | exact keysLine_ne_notJson _ h'
          | exact itemLine_ne_notJson _ _ h'
          | exact req_ne_notJson _ h'.symm
          | exact sep_ne_notJson h'.symm
          | exact obtained_ne_notJson _ h'.symm
          | exact lenline_ne_notJson _ h'.symm
          | exact devline_ne_notJson _ h'.symm
          | exact ualine_ne_notJson _ h'.symm
          | exact keysLine_ne_notJson _ h'.symm

def bodyEmptyObjTok : String := "\x7b\"success\": true, \"token\": \"\x7b\x7d\", \"device_id\": \"d1\"\x7d"

/-- C4 counterexample: with the token `"{}"` — which parses as JSON —
the call completes the success path but logs neither the structural dump
(no line starts with the keys-line prefix) nor the not-valid-JSON line,
so the claimed two-outcome dichotomy fails. -/
theorem pow_C4_counterexample :
    jsonLoads "\x7b\x7d" = some (.obj []) ∧
    (get_sentinel_token cfgEx (.resp 200 bodyEmptyObjTok)).result =
      some (.str "\x7b\x7d", .str "d1", .null) ∧
    notJsonEntry ∉ (get_sentinel_token cfgEx (.resp 200 bodyEmptyObjTok)).log ∧
    ((get_sentinel_token cfgEx (.resp 200 bodyEmptyObjTok)).log.all fun entry =>
      match entry with
      | .info m => !(List.isPrefixOf "[POW Service] Token structure keys".data m.data)
      | .error _ _ _ _ => true) = true := by
  refine ⟨rfl, rfl, ?_, ?_⟩
  · decide
  · decide

/-- Witness for C4: the not-JSON line for a plain token and the keys line
for an object token. -/
theorem pow_C4_diag_witness :
    notJsonEntry ∈ (get_sentinel_token cfgEx (.resp 200 bodyPlainTok)).log ∧
    LogEntry.info (tokenKeysLine [("id", .str "dev-42")]) ∈
      (get_sentinel_token cfgEx (.resp 200 bodyBackfill)).log ∧
    notJsonEntry ∉ (get_sentinel_token cfgEx (.resp 200 bodyBackfill)).log := by
  refine ⟨?_, ?_, ?_⟩
  · exact ((pow_C4_diag cfgEx bodyPlainTok "abc123"
      [("success", .bool true), ("token", .str "abc123")]
      (by decide) (by decide) rfl rfl rfl (by decide)).1 rfl).1
  · exact ((pow_C4_diag cfgEx bodyBackfill "\x7b\"id\":\"dev-42\"\x7d"
      [("success", .bool true), ("token", .str "\x7b\"id\":\"dev-42\"\x7d")]
      (by decide) (by decide) rfl rfl rfl (by decide)).2
        [("id", .str "dev-42")] rfl (List.cons_ne_nil _ _)).1
  · exact ((pow_C4_diag cfgEx bodyBackfill "\x7b\"id\":\"dev-42\"\x7d"
      [("success", .bool true), ("token", .str "\x7b\"id\":\"dev-42\"\x7d")]
      (by decide) (by decide) rfl rfl rfl (by decide)).2
        [("id", .str "dev-42")] rfl (List.cons_ne_nil _ _)).2.2

/-- C9: for every key of the parsed token payload whose value is a string
longer than 100 characters, the dump logs the redacted
`<string, length=N>` placeholder line for that key, and the rendered line
depends only on the value's length, never on its content (so the value is
never logged verbatim, identically on every call). -/
theorem pow_C9_redaction (cfg : Config) (text t : String)
    (fields tf : List (String × JsonValue))
    (h1 : cfg.pow_service_server_url ≠ "") (h2 : cfg.pow_service_api_key ≠ "")
    (hparse : jsonLoads text = some (.obj fields))
    (hsucc : pyTruthy (dictGet fields "success") = true)
    (htok : dictGet fields "token" = .str t) (hne : t ≠ "")
    (hp : jsonLoads t = some (.obj tf))
    (k v : String) (hkv : (k, JsonValue.str v) ∈ tf) (hlen : 100 < v.length) :
    LogEntry.info ("[POW Service] Token[" ++ k ++ "]: <string, length=" ++
        toString v.length ++ ">") ∈ (get_sentinel_token cfg (.resp 200 text)).log ∧
    (∀ w : String, w.length = v.length →
      tokenItemLine k (.str w) = tokenItemLine k (.str v)) := by
  have ht : pyTruthy (dictGet fields "token") = true := by
    rw [htok]; exact pyTruthy_str_ne t hne
  have hmain := gst_eq cfg (.resp 200 text) h1 h2
  rw [runBody_200_obj _ _ _ hparse, envelopeStep_token _ _ _ _ hsucc ht, htok,
    tokenStep_str_parseObj _ tf _ _ _ _ hp] at hmain
  have htfe : tf.isEmpty = false := by
    cases tf with
    | nil => cases hkv
    | cons a l => rfl
  rw [hmain, htfe]
  constructor
  · have hline : tokenItemLine k (.str v) =
        "[POW Service] Token[" ++ k ++ "]: <string, length=" ++ toString v.length ++ ">" := by
      simp [tokenItemLine, hlen]
    simp only [Bool.false_eq_true, if_false, List.mem_append, List.mem_cons, List.mem_map]
    exact Or.inl (Or.inr (Or.inr ⟨(k, .str v), hkv, by rw [hline]⟩))
  · intro w hw
    have hlw : 100 < w.length := hw ▸ hlen
    simp [tokenItemLine, hlen, hlw, hw]

def longVal : String := String.mk (List.replicate 150 'x')

def tokenLong : String := "\x7b\"ans\":\"" ++ longVal ++ "\"\x7d"

def bodyLong : String :=
  "\x7b\"success\": true, \"token\": \"\x7b\\\"ans\\\":\\\"" ++ longVal ++ "\\\"\x7d\"\x7d"

/-- Witness for C9 with a 150-character value: the placeholder line is
logged and an equal-length value of different content renders the same
line. -/
theorem pow_C9_redaction_witness :
    LogEntry.info ("[POW Service] Token[ans]: <string, length=150>") ∈
      (get_sentinel_token cfgEx (.resp 200 bodyLong)).log ∧
    tokenItemLine "ans" (.str (String.mk (List.replicate 150 'y'))) =
      tokenItemLine "ans" (.str longVal) := by
  have h := pow_C9_redaction cfgEx bodyLong tokenLong
    [("success", .bool true), ("token", .str tokenLong)] [("ans", .str longVal)]
    (by decide) (by decide) (by rfl) rfl rfl (by decide) (by rfl)
    "ans" longVal (List.mem_singleton.mpr rfl) (by decide)
  refine ⟨?_, ?_⟩
  · exact h.1
  · exact h.2 (String.mk (List.replicate 150 'y')) (by decide)
